import Mathlib

/-!
Verification development for the ValentineProject repository.

The development shallowly embeds the state store (ValentineModel.js together
with the transition methods of ValentineController.js), the swipe-gesture
classifier of useSwipe.js, and the JSON persistence shape used by
useLocalStorage.js, and proves the specified properties about them.

JavaScript numbers that can become NaN in this code (the photo index, which
flows through `%`) are embedded as `JSNum`; all other numeric fields only
ever hold integral values and are embedded as `Int`.  The JavaScript `%`
operator is the truncated remainder (`Int.tmod`), and `x % 0` is NaN.
-/

/-- A JavaScript number as used for `currentPhotoIndex`: either an integral
value or NaN (which arises from `%` by zero). -/
inductive JSNum where
  | num (n : Int)
  | nan
deriving Repr, DecidableEq

/-- JavaScript `+` on such numbers: NaN propagates. -/
def JSNum.add : JSNum → JSNum → JSNum
  | JSNum.num a, JSNum.num b => JSNum.num (a + b)
  | _, _ => JSNum.nan

/-- JavaScript `-` on such numbers: NaN propagates. -/
def JSNum.sub : JSNum → JSNum → JSNum
  | JSNum.num a, JSNum.num b => JSNum.num (a - b)
  | _, _ => JSNum.nan

/-- JavaScript `%` (remainder, truncated toward zero); `a % 0` is NaN and NaN
propagates. -/
def JSNum.mod : JSNum → JSNum → JSNum
  | JSNum.num a, JSNum.num b => if b = 0 then JSNum.nan else JSNum.num (a.tmod b)
  | _, _ => JSNum.nan

/-- Photo record, from ValentineModel.js (`@typedef Photo`). -/
structure Photo where
  id : String
  url : String
  caption : String
  likes : Int
  isFavorite : Bool
deriving Repr, DecidableEq

/-- Application state, from `ValentineModel` in ValentineModel.js. -/
structure ValentineState where
  currentView : String
  photos : List Photo
  naughtyLevel : Int
  heartClicks : Int
  showConfetti : Bool
  currentPhotoIndex : JSNum
deriving Repr, DecidableEq

/-- The fixed default state `ValentineModel` / `createInitialState()` from
ValentineModel.js.  The captions are transcribed code point by code point
from the source file (they are mojibake in the source). -/
def createInitialState : ValentineState :=
  { currentView := "home"
    photos :=
      [ { id := "1"
          url := "/src/assets/photos/DakogKaon.jpg"
          caption := "ðŸ˜ˆ That time you made my heart race..."
          likes := 0
          isFavorite := false }
      , { id := "2"
          url := "/src/assets/photos/Tabian.jpeg"
          caption := "ðŸ’• You look so good, it should be illegal"
          likes := 0
          isFavorite := false }
      , { id := "3"
          url := "/src/assets/photos/WowGwapa.jpeg"
          caption := "ðŸ”¥ My personal snack"
          likes := 0
          isFavorite := false } ]
    naughtyLevel := 0
    heartClicks := 0
    showConfetti := false
    currentPhotoIndex := JSNum.num 0 }

/-- `ValidationRules.isValidPhoto` from ValentineModel.js.  The `typeof`
string checks are guaranteed by the embedding's types; the residual check is
`photo.url.length > 0`. -/
def isValidPhoto (photo : Photo) : Bool :=
  photo.url.length > 0

/-- `ValidationRules.isValidNaughtyLevel` from ValentineModel.js. -/
def isValidNaughtyLevel (level : Int) : Bool :=
  level ≥ 0 && level ≤ 100

/-- `ValentineController.navigateTo(viewName)`: invalid views are rejected
(logged, state unchanged); valid views replace `currentView` only. -/
def navigateTo (viewName : String) (s : ValentineState) : ValentineState :=
  if !(["home", "gallery", "naughty"].contains viewName) then s
  else { s with currentView := viewName }

/-- `ValentineController.goBack()`: naughty goes back to gallery, anything
else to home. -/
def goBack (s : ValentineState) : ValentineState :=
  let previousView := if s.currentView = "naughty" then "gallery" else "home"
  { s with currentView := previousView }

/-- `ValentineController.likePhoto(photoId)`: bump the matching photo's
likes, raise the naughty level by 5 capped at 100, and count a heart click
unconditionally. -/
def likePhoto (photoId : String) (s : ValentineState) : ValentineState :=
  let updatedPhotos :=
    s.photos.map fun photo =>
      if photo.id = photoId then { photo with likes := photo.likes + 1 } else photo
  let newNaughtyLevel := min (s.naughtyLevel + 5) 100
  { s with
      photos := updatedPhotos
      naughtyLevel := newNaughtyLevel
      heartClicks := s.heartClicks + 1 }

/-- `ValentineController.toggleFavorite(photoId)`. -/
def toggleFavorite (photoId : String) (s : ValentineState) : ValentineState :=
  { s with
      photos :=
        s.photos.map fun photo =>
          if photo.id = photoId then { photo with isFavorite := !photo.isFavorite } else photo }

/-- `ValentineController.changePhoto(direction)`: wraparound with `%` on the
photo count; with an unknown direction the index is left as it is.  With an
empty photo list the JavaScript `%` is by zero and produces NaN. -/
def changePhoto (direction : String) (s : ValentineState) : ValentineState :=
  let totalPhotos : Int := s.photos.length
  let newIndex : JSNum :=
    if direction = "next" then
      JSNum.mod (JSNum.add s.currentPhotoIndex (JSNum.num 1)) (JSNum.num totalPhotos)
    else if direction = "prev" then
      JSNum.mod (JSNum.add (JSNum.sub s.currentPhotoIndex (JSNum.num 1)) (JSNum.num totalPhotos))
        (JSNum.num totalPhotos)
    else s.currentPhotoIndex
  { s with currentPhotoIndex := newIndex }

/-- The `photoData` argument of `addPhoto`: `{url, caption}` with an optional
caption. -/
structure PhotoData where
  url : String
  caption : Option String
deriving Repr, DecidableEq

/-- `ValentineController.addPhoto(photoData)`.  The id generated by
`Date.now().toString()` is an external input and is passed explicitly.  The
JavaScript default `photoData.caption || "💕"` kicks in when the caption is
absent or falsy (the empty string). -/
def addPhoto (generatedId : String) (photoData : PhotoData) (s : ValentineState) :
    ValentineState :=
  let newPhoto : Photo :=
    { id := generatedId
      url := photoData.url
      caption :=
        match photoData.caption with
        | some c => if c = "" then "💕" else c
        | none => "💕"
      likes := 0
      isFavorite := false }
  if !(isValidPhoto newPhoto) then s
  else { s with photos := s.photos ++ [newPhoto] }

/-- `ValentineController.increaseNaughtyLevel(amount)`: cap at 100 and raise
the confetti flag exactly when the new level reaches 50 while the previous
level was still below 50. -/
def increaseNaughtyLevel (amount : Int) (s : ValentineState) : ValentineState :=
  let newLevel := min (s.naughtyLevel + amount) 100
  let confetti := decide (newLevel ≥ 50) && decide (s.naughtyLevel < 50)
  { s with
      naughtyLevel := newLevel
      showConfetti := confetti }

/-- `ValentineController.resetNaughtyLevel()`. -/
def resetNaughtyLevel (s : ValentineState) : ValentineState :=
  { s with
      naughtyLevel := 0
      showConfetti := false }

/-- `ValentineController.handleHeartClick()`: count the click, raise the
naughty level by 3 capped at 100, confetti on every 10th click. -/
def handleHeartClick (s : ValentineState) : ValentineState :=
  let newClicks := s.heartClicks + 1
  let newNaughtyLevel := min (s.naughtyLevel + 3) 100
  let confetti := decide (newClicks.tmod 10 = 0)
  { s with
      heartClicks := newClicks
      naughtyLevel := newNaughtyLevel
      showConfetti := confetti }

/-- `ValentineController.hideConfetti()`. -/
def hideConfetti (s : ValentineState) : ValentineState :=
  { s with showConfetti := false }

/-- Cardinal swipe directions recognized by useSwipe.js. -/
inductive SwipeDir where
  | left
  | right
  | up
  | down
deriving Repr, DecidableEq

/-- The decision core of `handleTouchEnd` in useSwipe.js: given the recorded
start and final touch coordinates and the `minSwipeDistance` threshold,
which directional callback (if any) fires.  `some d` means the callback for
direction `d` is invoked; `none` means no callback fires. -/
def handleTouchEnd (startX startY endX endY minSwipeDistance : Int) : Option SwipeDir :=
  let deltaX := endX - startX
  let deltaY := endY - startY
  let absDeltaX := abs deltaX
  let absDeltaY := abs deltaY
  if absDeltaX > absDeltaY then
    if absDeltaX > minSwipeDistance then
      if deltaX > 0 then some SwipeDir.right else some SwipeDir.left
    else none
  else
    if absDeltaY > minSwipeDistance then
      if deltaY > 0 then some SwipeDir.down else some SwipeDir.up
    else none

/-- The spec's decision procedure for the touch-end classifier, written out
literally from its words: Right if `adx > ady ∧ adx > t ∧ dx > 0`; Left if
`adx > ady ∧ adx > t ∧ dx < 0`; Down if `adx ≤ ady ∧ ady > t ∧ dy > 0`; Up
if `adx ≤ ady ∧ ady > t ∧ dy < 0`; no callback otherwise. -/
def swipeSpecDecision (startX startY endX endY t : Int) : Option SwipeDir :=
  let dx := endX - startX
  let dy := endY - startY
  let adx := abs dx
  let ady := abs dy
  if adx > ady ∧ adx > t ∧ dx > 0 then some SwipeDir.right
  else if adx > ady ∧ adx > t ∧ dx < 0 then some SwipeDir.left
  else if adx ≤ ady ∧ ady > t ∧ dy > 0 then some SwipeDir.down
  else if adx ≤ ady ∧ ady > t ∧ dy < 0 then some SwipeDir.up
  else none

/-- JSON values, the image of `JSON.stringify`/`JSON.parse` used by
useLocalStorage.js.  Numbers are restricted to the integral values that
occur in this application's state. -/
inductive Json where
  | null
  | bool (b : Bool)
  | num (n : Int)
  | str (s : String)
  | arr (elems : List Json)
  | obj (fields : List (String × Json))
deriving Repr

/-- Field lookup on a JSON object. -/
def Json.getField (j : Json) (key : String) : Option Json :=
  match j with
  | Json.obj fields => fields.lookup key
  | _ => none

/-- How `JSON.stringify` renders one of our possibly-NaN numbers: NaN has no
JSON representation and is rendered as `null`. -/
def encodeJSNum (x : JSNum) : Json :=
  match x with
  | JSNum.num n => Json.num n
  | JSNum.nan => Json.null

/-- The JSON value `JSON.stringify` produces for a `Photo`. -/
def encodePhoto (p : Photo) : Json :=
  Json.obj
    [ ("id", Json.str p.id)
    , ("url", Json.str p.url)
    , ("caption", Json.str p.caption)
    , ("likes", Json.num p.likes)
    , ("isFavorite", Json.bool p.isFavorite) ]

/-- The JSON value `JSON.stringify` produces for the whole persisted state
(useLocalStorage.js stores the complete state object under one key). -/
def encodeState (s : ValentineState) : Json :=
  Json.obj
    [ ("currentView", Json.str s.currentView)
    , ("photos", Json.arr (s.photos.map encodePhoto))
    , ("naughtyLevel", Json.num s.naughtyLevel)
    , ("heartClicks", Json.num s.heartClicks)
    , ("showConfetti", Json.bool s.showConfetti)
    , ("currentPhotoIndex", encodeJSNum s.currentPhotoIndex) ]

/-- Reading a string back out of a parsed JSON value. -/
def decodeStr : Json → Option String
  | Json.str s => some s
  | _ => none

/-- Reading an integral number back out of a parsed JSON value. -/
def decodeNum : Json → Option Int
  | Json.num n => some n
  | _ => none

/-- Reading a boolean back out of a parsed JSON value. -/
def decodeBool : Json → Option Bool
  | Json.bool b => some b
  | _ => none

/-- Reading an index back out of a parsed JSON value: only an integral
number reproduces a `JSNum` (a NaN was flattened to `null` by stringify and
stays `null` after parsing, so it does not decode). -/
def decodeJSNum : Json → Option JSNum
  | Json.num n => some (JSNum.num n)
  | _ => none

/-- Reading a `Photo` back out of a parsed JSON value. -/
def decodePhoto (j : Json) : Option Photo :=
  match decodeStr ((j.getField "id").getD Json.null),
      decodeStr ((j.getField "url").getD Json.null),
      decodeStr ((j.getField "caption").getD Json.null),
      decodeNum ((j.getField "likes").getD Json.null),
      decodeBool ((j.getField "isFavorite").getD Json.null) with
  | some id, some url, some caption, some likes, some isFavorite =>
      some { id := id, url := url, caption := caption, likes := likes, isFavorite := isFavorite }
  | _, _, _, _, _ => none

/-- Reading a photo list back out of parsed JSON array elements. -/
def decodePhotoList : List Json → Option (List Photo)
  | [] => some []
  | j :: rest =>
      match decodePhoto j, decodePhotoList rest with
      | some p, some ps => some (p :: ps)
      | _, _ => none

/-- Reading the photos field (a JSON array) back. -/
def decodePhotos : Json → Option (List Photo)
  | Json.arr elems => decodePhotoList elems
  | _ => none

/-- Reading a full `ValentineState` back out of a parsed JSON value:
`deserialize` in the round-trip contract of the persistence adapter. -/
def decodeState (j : Json) : Option ValentineState :=
  match decodeStr ((j.getField "currentView").getD Json.null),
      decodePhotos ((j.getField "photos").getD Json.null),
      decodeNum ((j.getField "naughtyLevel").getD Json.null),
      decodeNum ((j.getField "heartClicks").getD Json.null),
      decodeBool ((j.getField "showConfetti").getD Json.null),
      decodeJSNum ((j.getField "currentPhotoIndex").getD Json.null) with
  | some currentView, some photos, some naughtyLevel, some heartClicks,
      some showConfetti, some currentPhotoIndex =>
      some { currentView := currentView, photos := photos, naughtyLevel := naughtyLevel,
             heartClicks := heartClicks, showConfetti := showConfetti,
             currentPhotoIndex := currentPhotoIndex }
  | _, _, _, _, _, _ => none

/-- States reachable from the default initial state by the transition
operations of the controller. -/
inductive Reachable : ValentineState → Prop where
  | init : Reachable createInitialState
  | navigateTo (viewName : String) {s : ValentineState} :
      Reachable s → Reachable (navigateTo viewName s)
  | goBack {s : ValentineState} : Reachable s → Reachable (goBack s)
  | likePhoto (photoId : String) {s : ValentineState} :
      Reachable s → Reachable (likePhoto photoId s)
  | toggleFavorite (photoId : String) {s : ValentineState} :
      Reachable s → Reachable (toggleFavorite photoId s)
  | changePhoto (direction : String) {s : ValentineState} :
      Reachable s → Reachable (changePhoto direction s)
  | addPhoto (generatedId : String) (photoData : PhotoData) {s : ValentineState} :
      Reachable s → Reachable (addPhoto generatedId photoData s)
  | increaseNaughtyLevel (amount : Int) {s : ValentineState} :
      Reachable s → Reachable (increaseNaughtyLevel amount s)
  | resetNaughtyLevel {s : ValentineState} : Reachable s → Reachable (resetNaughtyLevel s)
  | handleHeartClick {s : ValentineState} : Reachable s → Reachable (handleHeartClick s)
  | hideConfetti {s : ValentineState} : Reachable s → Reachable (hideConfetti s)

/-! ## Helper lemmas -/

/-- Mapping the like-bump function over a list with no matching id is the
identity. -/
theorem map_likeBump_eq_self (photoId : String) (l : List Photo)
    (h : ∀ p ∈ l, p.id ≠ photoId) :
    (l.map fun photo =>
      if photo.id = photoId then { photo with likes := photo.likes + 1 } else photo) = l := by
  induction l with
  | nil => rfl
  | cons p rest ih =>
      simp only [List.map_cons]
      rw [if_neg (h p (by simp)), ih fun q hq => h q (by simp [hq])]

/-! ## Claim theorems -/

/-- C1 counterexample: starting from the default state (whose naughty level
is 0, inside [0, 100]), `increaseNaughtyLevel(-1)` drives the naughty level
below 0, because the code only caps at 100 and never clamps from below. -/
theorem increaseNaughtyLevel_negative_amount_counterexample :
    0 ≤ createInitialState.naughtyLevel ∧ createInitialState.naughtyLevel ≤ 100 ∧
    (increaseNaughtyLevel (-1) createInitialState).naughtyLevel < 0 := by
  decide

/-- C1 (amended): for every starting state with `0 ≤ naughtyLevel ≤ 100` and
every nonnegative amount, `increaseNaughtyLevel(amount)` keeps
`naughtyLevel` within `[0, 100]`. -/
theorem increaseNaughtyLevel_bounds (s : ValentineState) (amount : Int)
    (h0 : 0 ≤ s.naughtyLevel) (h1 : s.naughtyLevel ≤ 100) (ha : 0 ≤ amount) :
    0 ≤ (increaseNaughtyLevel amount s).naughtyLevel ∧
    (increaseNaughtyLevel amount s).naughtyLevel ≤ 100 := by
  show 0 ≤ min (s.naughtyLevel + amount) 100 ∧ min (s.naughtyLevel + amount) 100 ≤ 100
  omega

/-- C1 witness. -/
theorem increaseNaughtyLevel_bounds_witness :
    0 ≤ (increaseNaughtyLevel 60 createInitialState).naughtyLevel ∧
    (increaseNaughtyLevel 60 createInitialState).naughtyLevel ≤ 100 :=
  increaseNaughtyLevel_bounds createInitialState 60 (by decide) (by decide) (by decide)

/-- C2: on a state with an empty photos list, `changePhoto` does not
short-circuit; it evaluates the JavaScript `%` with divisor 0, which yields
NaN, and stores that NaN in `currentPhotoIndex` — for both directions. -/
theorem changePhoto_empty_photos_nan :
    (changePhoto "next"
      { currentView := "gallery", photos := [], naughtyLevel := 0, heartClicks := 0,
        showConfetti := false, currentPhotoIndex := JSNum.num 0 }).currentPhotoIndex
      = JSNum.nan ∧
    (changePhoto "prev"
      { currentView := "gallery", photos := [], naughtyLevel := 0, heartClicks := 0,
        showConfetti := false, currentPhotoIndex := JSNum.num 0 }).currentPhotoIndex
      = JSNum.nan := by
  decide

/-- C4: `likePhoto` with an id that matches no photo leaves the photos list
unchanged yet still increments `heartClicks` and raises `naughtyLevel` by 5
capped at 100. -/
theorem likePhoto_missing_id (s : ValentineState) (photoId : String)
    (h : ∀ p ∈ s.photos, p.id ≠ photoId) :
    (likePhoto photoId s).photos = s.photos ∧
    (likePhoto photoId s).heartClicks = s.heartClicks + 1 ∧
    (likePhoto photoId s).naughtyLevel = min (s.naughtyLevel + 5) 100 :=
  ⟨map_likeBump_eq_self photoId s.photos h, rfl, rfl⟩

/-- C4 witness: the default state has photo ids "1", "2", "3", so id "999"
matches nothing. -/
theorem likePhoto_missing_id_witness :
    (likePhoto "999" createInitialState).photos = createInitialState.photos ∧
    (likePhoto "999" createInitialState).heartClicks = createInitialState.heartClicks + 1 ∧
    (likePhoto "999" createInitialState).naughtyLevel =
      min (createInitialState.naughtyLevel + 5) 100 :=
  likePhoto_missing_id createInitialState "999" (by decide)

/-- C7: `increaseNaughtyLevel` sets the new level to
`min(naughtyLevel + amount, 100)` and raises `showConfetti` exactly on the
transition crossing 50 from below: the flag is true iff the previous level
was < 50 and the new level is ≥ 50. -/
theorem increaseNaughtyLevel_confetti_edge (s : ValentineState) (amount : Int) :
    (increaseNaughtyLevel amount s).naughtyLevel = min (s.naughtyLevel + amount) 100 ∧
    ((increaseNaughtyLevel amount s).showConfetti = true ↔
      (s.naughtyLevel < 50 ∧ 50 ≤ (increaseNaughtyLevel amount s).naughtyLevel)) := by
  refine ⟨rfl, ?_⟩
  show (decide (min (s.naughtyLevel + amount) 100 ≥ 50) && decide (s.naughtyLevel < 50)) = true ↔ _
  simp only [Bool.and_eq_true, decide_eq_true_eq]
  constructor
  · exact fun ⟨a, b⟩ => ⟨b, a⟩
  · exact fun ⟨a, b⟩ => ⟨b, a⟩

/-- C10: `resetNaughtyLevel` changes only `naughtyLevel` (to 0) and
`showConfetti` (to false); `heartClicks`, `photos`, `currentView` and
`currentPhotoIndex` are untouched. -/
theorem resetNaughtyLevel_frame (s : ValentineState) :
    (resetNaughtyLevel s).naughtyLevel = 0 ∧
    (resetNaughtyLevel s).showConfetti = false ∧
    (resetNaughtyLevel s).heartClicks = s.heartClicks ∧
    (resetNaughtyLevel s).photos = s.photos ∧
    (resetNaughtyLevel s).currentView = s.currentView ∧
    (resetNaughtyLevel s).currentPhotoIndex = s.currentPhotoIndex :=
  ⟨rfl, rfl, rfl, rfl, rfl, rfl⟩

/-- C3 counterexample: with the (nonsensical) negative threshold −1 and the
zero gesture, the code's horizontal test fails (0 > 0 is false), its
vertical test passes (0 > −1) and `deltaY > 0` is false, so the code fires
Up, while the spec's decision procedure selects no callback (its Up case
requires `dy < 0`). -/
theorem handleTouchEnd_negative_threshold_counterexample :
    handleTouchEnd 0 0 0 0 (-1) = some SwipeDir.up ∧
    swipeSpecDecision 0 0 0 0 (-1) = none := by
  decide

/-- C3 (amended): for every gesture and every nonnegative threshold, the
touch-end classifier fires exactly the callback the spec's decision
procedure selects (tie `adx = ady` treated as vertical, below-threshold
gestures fire nothing). -/
theorem handleTouchEnd_matches_spec (startX startY endX endY t : Int) (ht : 0 ≤ t) :
    handleTouchEnd startX startY endX endY t = swipeSpecDecision startX startY endX endY t := by
  simp only [handleTouchEnd, swipeSpecDecision]
  have e1 : 0 ≤ |endX - startX| := abs_nonneg _
  have e2 : 0 ≤ |endY - startY| := abs_nonneg _
  rcases abs_choice (endX - startX) with hx | hx <;>
    rcases abs_choice (endY - startY) with hy | hy <;>
    rw [hx] at e1 ⊢ <;> rw [hy] at e2 ⊢ <;>
    split_ifs <;> first | rfl | omega

/-- C3 witness: the spec's worked examples — (100,100)→(40,100) fires Left,
(100,100)→(100,100) fires nothing, (100,100)→(100,151) fires Down, all at
threshold 50 — and code and spec agree there. -/
theorem handleTouchEnd_matches_spec_witness :
    (handleTouchEnd 100 100 40 100 50 = swipeSpecDecision 100 100 40 100 50 ∧
      handleTouchEnd 100 100 40 100 50 = some SwipeDir.left) ∧
    handleTouchEnd 100 100 100 100 50 = none ∧
    handleTouchEnd 100 100 100 151 50 = some SwipeDir.down :=
  ⟨⟨handleTouchEnd_matches_spec 100 100 40 100 50 (by decide), by decide⟩,
    by decide, by decide⟩

/-- C6: `navigateTo` with a view outside {home, gallery, naughty} leaves the
entire state unchanged; with a valid view it sets `currentView` to that view
and changes no other field. -/
theorem navigateTo_spec (s : ValentineState) (viewName : String) :
    (viewName ∉ ["home", "gallery", "naughty"] → navigateTo viewName s = s) ∧
    (viewName ∈ ["home", "gallery", "naughty"] →
      (navigateTo viewName s).currentView = viewName ∧
      (navigateTo viewName s).photos = s.photos ∧
      (navigateTo viewName s).naughtyLevel = s.naughtyLevel ∧
      (navigateTo viewName s).heartClicks = s.heartClicks ∧
      (navigateTo viewName s).showConfetti = s.showConfetti ∧
      (navigateTo viewName s).currentPhotoIndex = s.currentPhotoIndex) := by
  constructor
  · intro h
    have hc : (["home", "gallery", "naughty"].contains viewName) = false := by
      simpa using h
    unfold navigateTo
    rw [hc]
    rfl
  · intro h
    have hc : (["home", "gallery", "naughty"].contains viewName) = true := by
      simpa using h
    unfold navigateTo
    rw [hc]
    exact ⟨rfl, rfl, rfl, rfl, rfl, rfl⟩

/-- C6 witness: "bogus" is rejected with the state unchanged; "gallery" is
accepted and only `currentView` changes. -/
theorem navigateTo_spec_witness :
    navigateTo "bogus" createInitialState = createInitialState ∧
    (navigateTo "gallery" createInitialState).currentView = "gallery" :=
  ⟨(navigateTo_spec createInitialState "bogus").1 (by decide),
   ((navigateTo_spec createInitialState "gallery").2 (by decide)).1⟩

/-- Iterating `handleHeartClick` adds the number of calls to `heartClicks`. -/
theorem handleHeartClick_iterate_heartClicks (k : Nat) (s : ValentineState) :
    (handleHeartClick^[k] s).heartClicks = s.heartClicks + k := by
  induction k generalizing s with
  | zero => simp
  | succ n ih =>
      rw [Function.iterate_succ_apply, ih]
      show s.heartClicks + 1 + (n : Int) = s.heartClicks + ((n + 1 : Nat) : Int)
      push_cast
      ring

/-- The confetti flag after the (k+1)-st heart click is determined by the
click counter at that click. -/
theorem handleHeartClick_iterate_showConfetti (k : Nat) (s : ValentineState) :
    (handleHeartClick^[k + 1] s).showConfetti =
      decide ((s.heartClicks + (k : Int) + 1).tmod 10 = 0) := by
  rw [Function.iterate_succ_apply']
  show decide (((handleHeartClick^[k] s).heartClicks + 1).tmod 10 = 0) = _
  rw [handleHeartClick_iterate_heartClicks]

/-- C5: each `handleHeartClick` increments `heartClicks`, caps the naughty
level, and raises `showConfetti` iff the new click count is an exact
multiple of 10; in particular ten consecutive clicks from `heartClicks = 0`
show confetti only after the 10th. -/
theorem handleHeartClick_spec (s : ValentineState) :
    (handleHeartClick s).heartClicks = s.heartClicks + 1 ∧
    (handleHeartClick s).naughtyLevel = min (s.naughtyLevel + 3) 100 ∧
    ((handleHeartClick s).showConfetti = true ↔ (10 : Int) ∣ (handleHeartClick s).heartClicks) ∧
    (s.heartClicks = 0 →
      (∀ k : Nat, 1 ≤ k → k ≤ 9 → (handleHeartClick^[k] s).showConfetti = false) ∧
      (handleHeartClick^[10] s).showConfetti = true) := by
  refine ⟨rfl, rfl, ?_, ?_⟩
  · show decide ((s.heartClicks + 1).tmod 10 = 0) = true ↔ (10 : Int) ∣ (s.heartClicks + 1)
    rw [decide_eq_true_eq]
    exact Int.dvd_iff_tmod_eq_zero.symm
  · intro h0
    constructor
    · intro k hk1 hk9
      obtain ⟨j, rfl⟩ : ∃ j, k = j + 1 := ⟨k - 1, by omega⟩
      rw [handleHeartClick_iterate_showConfetti, h0]
      have hj : j ≤ 8 := by omega
      interval_cases j <;> decide
    · have h10 : (10 : Nat) = 9 + 1 := rfl
      rw [h10, handleHeartClick_iterate_showConfetti, h0]
      decide

/-- C5 witness: from the default state (0 clicks), confetti is off after the
5th click and on after the 10th. -/
theorem handleHeartClick_spec_witness :
    (handleHeartClick^[5] createInitialState).showConfetti = false ∧
    (handleHeartClick^[10] createInitialState).showConfetti = true :=
  ⟨((handleHeartClick_spec createInitialState).2.2.2 rfl).1 5 (by decide) (by decide),
   ((handleHeartClick_spec createInitialState).2.2.2 rfl).2⟩

/-- `changePhoto` never touches the photos list. -/
theorem changePhoto_photos (direction : String) (s : ValentineState) :
    (changePhoto direction s).photos = s.photos := rfl

/-- Index produced by `changePhoto "next"`. -/
theorem changePhoto_next_index (s : ValentineState) :
    (changePhoto "next" s).currentPhotoIndex =
      JSNum.mod (JSNum.add s.currentPhotoIndex (JSNum.num 1))
        (JSNum.num (s.photos.length : Int)) := rfl

/-- Index produced by `changePhoto "prev"`. -/
theorem changePhoto_prev_index (s : ValentineState) :
    (changePhoto "prev" s).currentPhotoIndex =
      JSNum.mod
        (JSNum.add (JSNum.sub s.currentPhotoIndex (JSNum.num 1))
          (JSNum.num (s.photos.length : Int)))
        (JSNum.num (s.photos.length : Int)) := rfl

/-- An unknown direction leaves the index alone. -/
theorem changePhoto_other_index (direction : String) (s : ValentineState)
    (h1 : direction ≠ "next") (h2 : direction ≠ "prev") :
    (changePhoto direction s).currentPhotoIndex = s.currentPhotoIndex := by
  simp only [changePhoto]
  rw [if_neg h1, if_neg h2]

/-- `%` on two integral JS numbers with a nonzero divisor is the truncated
remainder. -/
theorem JSNum_mod_num (a n : Int) (h : n ≠ 0) :
    JSNum.mod (JSNum.num a) (JSNum.num n) = JSNum.num (a.tmod n) := by
  simp [JSNum.mod, h]

/-- One `changePhoto` call on a non-empty gallery keeps an in-range integral
index in range, whatever the direction string is. -/
theorem changePhoto_index_bounds (direction : String) (s : ValentineState) (i : Int)
    (hn : 0 < s.photos.length) (hidx : s.currentPhotoIndex = JSNum.num i)
    (h0 : 0 ≤ i) (h1 : i < (s.photos.length : Int)) :
    ∃ j : Int, (changePhoto direction s).currentPhotoIndex = JSNum.num j ∧
      0 ≤ j ∧ j < (s.photos.length : Int) := by
  have hpos : (0 : Int) < (s.photos.length : Int) := by exact_mod_cast hn
  have hne : ((s.photos.length : Int)) ≠ 0 := by omega
  by_cases hd1 : direction = "next"
  · subst hd1
    refine ⟨(i + 1).tmod (s.photos.length : Int), ?_, ?_, ?_⟩
    · rw [changePhoto_next_index, hidx]
      show JSNum.mod (JSNum.num (i + 1)) (JSNum.num (s.photos.length : Int)) = _
      exact JSNum_mod_num _ _ hne
    · exact Int.tmod_nonneg _ (by omega)
    · exact Int.tmod_lt_of_pos _ hpos
  by_cases hd2 : direction = "prev"
  · subst hd2
    refine ⟨(i - 1 + (s.photos.length : Int)).tmod (s.photos.length : Int), ?_, ?_, ?_⟩
    · rw [changePhoto_prev_index, hidx]
      show JSNum.mod (JSNum.num (i - 1 + (s.photos.length : Int)))
          (JSNum.num (s.photos.length : Int)) = _
      exact JSNum_mod_num _ _ hne
    · exact Int.tmod_nonneg _ (by omega)
    · exact Int.tmod_lt_of_pos _ hpos
  · exact ⟨i, by rw [changePhoto_other_index direction s hd1 hd2, hidx], h0, h1⟩

/-- Any finite sequence of `changePhoto` calls keeps the photos list and an
in-range integral index invariant. -/
theorem changePhoto_foldl_inv (ds : List String) (s : ValentineState)
    (hn : 0 < s.photos.length)
    (h : ∃ i : Int, s.currentPhotoIndex = JSNum.num i ∧ 0 ≤ i ∧ i < (s.photos.length : Int)) :
    (ds.foldl (fun t d => changePhoto d t) s).photos = s.photos ∧
    ∃ j : Int, (ds.foldl (fun t d => changePhoto d t) s).currentPhotoIndex = JSNum.num j ∧
      0 ≤ j ∧ j < (s.photos.length : Int) := by
  induction ds generalizing s with
  | nil => exact ⟨rfl, h⟩
  | cons d rest ih =>
      obtain ⟨i, hidx, h0, h1⟩ := h
      obtain ⟨j, hj, hj0, hj1⟩ := changePhoto_index_bounds d s i hn hidx h0 h1
      have hp : (changePhoto d s).photos = s.photos := changePhoto_photos d s
      have hrec := ih (changePhoto d s) (by rw [hp]; exact hn) ⟨j, hj, hj0, by rw [hp]; exact hj1⟩
      rw [List.foldl_cons]
      refine ⟨?_, ?_⟩
      · rw [hrec.1, hp]
      · obtain ⟨m, hm, hm0, hm1⟩ := hrec.2
        exact ⟨m, hm, hm0, by rw [hp] at hm1; exact hm1⟩

/-- C8: on a non-empty gallery with an in-range index, `changePhoto` advances
as `(index + 1) mod n`, retreats as `(index − 1 + n) mod n`, and every finite
sequence of next/prev calls keeps the index inside `[0, n)`. -/
theorem changePhoto_wraparound (s : ValentineState) (i : Int)
    (hn : 0 < s.photos.length) (hidx : s.currentPhotoIndex = JSNum.num i)
    (h0 : 0 ≤ i) (h1 : i < (s.photos.length : Int)) :
    (changePhoto "next" s).currentPhotoIndex =
      JSNum.num ((i + 1) % (s.photos.length : Int)) ∧
    (changePhoto "prev" s).currentPhotoIndex =
      JSNum.num ((i - 1 + (s.photos.length : Int)) % (s.photos.length : Int)) ∧
    ∀ ds : List String, (∀ d ∈ ds, d = "next" ∨ d = "prev") →
      ∃ j : Int, 0 ≤ j ∧ j < (s.photos.length : Int) ∧
        (ds.foldl (fun t d => changePhoto d t) s).currentPhotoIndex = JSNum.num j := by
  have hpos : (0 : Int) < (s.photos.length : Int) := by exact_mod_cast hn
  have hne : ((s.photos.length : Int)) ≠ 0 := by omega
  refine ⟨?_, ?_, ?_⟩
  · rw [changePhoto_next_index, hidx]
    show JSNum.mod (JSNum.num (i + 1)) (JSNum.num (s.photos.length : Int)) = _
    rw [JSNum_mod_num _ _ hne, Int.tmod_eq_emod (by omega) (by omega)]
  · rw [changePhoto_prev_index, hidx]
    show JSNum.mod (JSNum.num (i - 1 + (s.photos.length : Int)))
        (JSNum.num (s.photos.length : Int)) = _
    rw [JSNum_mod_num _ _ hne, Int.tmod_eq_emod (by omega) (by omega)]
  · intro ds _
    obtain ⟨-, j, hj, hj0, hj1⟩ := changePhoto_foldl_inv ds s hn ⟨i, hidx, h0, h1⟩
    exact ⟨j, hj0, hj1, hj⟩

/-- C8 witness: with the default 3 photos and index 0, one `prev` call
yields index 2. -/
theorem changePhoto_wraparound_witness :
    (changePhoto "prev" createInitialState).currentPhotoIndex = JSNum.num 2 := by
  have h := (changePhoto_wraparound createInitialState 0 (by decide) rfl
    (by decide) (by decide)).2.1
  exact h.trans (by decide)

/-- A photo decodes back from its encoding. -/
theorem decodePhoto_encodePhoto (p : Photo) : decodePhoto (encodePhoto p) = some p := rfl

/-- A photo list decodes back from its elementwise encoding. -/
theorem decodePhotoList_map (l : List Photo) :
    decodePhotoList (l.map encodePhoto) = some l := by
  induction l with
  | nil => rfl
  | cons p rest ih =>
      show (match decodePhoto (encodePhoto p), decodePhotoList (rest.map encodePhoto) with
            | some q, some ps => some (q :: ps)
            | _, _ => none) = some (p :: rest)
      rw [decodePhoto_encodePhoto, ih]

/-- Any state whose photo index is an integral number (not NaN) decodes back
from its encoding. -/
theorem decodeState_encodeState_of_num (s : ValentineState) (i : Int)
    (h : s.currentPhotoIndex = JSNum.num i) :
    decodeState (encodeState s) = some s := by
  obtain ⟨cv, ph, nl, hc, sc, cpi⟩ := s
  replace h : cpi = JSNum.num i := h
  subst h
  have hph : decodePhotos (Json.arr (List.map encodePhoto ph)) = some ph :=
    decodePhotoList_map ph
  simp [decodeState, encodeState, Json.getField, List.lookup, hph, decodeStr, decodeNum,
    decodeBool, decodeJSNum, encodeJSNum]

/-- Every reachable state has a non-empty photo gallery and an integral
(non-NaN) photo index. -/
theorem reachable_photos_pos_index_num (s : ValentineState) (hs : Reachable s) :
    0 < s.photos.length ∧ ∃ i : Int, s.currentPhotoIndex = JSNum.num i := by
  induction hs with
  | init => exact ⟨by decide, 0, rfl⟩
  | navigateTo v _ ih =>
      obtain ⟨h1, i, h2⟩ := ih
      constructor
      · show 0 < (navigateTo v _).photos.length
        unfold navigateTo
        split_ifs <;> exact h1
      · refine ⟨i, ?_⟩
        show (navigateTo v _).currentPhotoIndex = JSNum.num i
        unfold navigateTo
        split_ifs <;> exact h2
  | goBack _ ih =>
      obtain ⟨h1, i, h2⟩ := ih
      exact ⟨h1, i, h2⟩
  | likePhoto pid _ ih =>
      obtain ⟨h1, i, h2⟩ := ih
      refine ⟨?_, i, h2⟩
      show 0 < (List.map _ _).length
      rw [List.length_map]
      exact h1
  | toggleFavorite pid _ ih =>
      obtain ⟨h1, i, h2⟩ := ih
      refine ⟨?_, i, h2⟩
      show 0 < (List.map _ _).length
      rw [List.length_map]
      exact h1
  | changePhoto d _ ih =>
      obtain ⟨h1, i, h2⟩ := ih
      refine ⟨h1, ?_⟩
      rename_i t _
      have hne : ((t.photos.length : Int)) ≠ 0 := by
        have : (0 : Int) < (t.photos.length : Int) := by exact_mod_cast h1
        omega
      by_cases hd1 : d = "next"
      · subst hd1
        refine ⟨(i + 1).tmod (t.photos.length : Int), ?_⟩
        rw [changePhoto_next_index, h2]
        show JSNum.mod (JSNum.num (i + 1)) (JSNum.num (t.photos.length : Int)) = _
        exact JSNum_mod_num _ _ hne
      by_cases hd2 : d = "prev"
      · subst hd2
        refine ⟨(i - 1 + (t.photos.length : Int)).tmod (t.photos.length : Int), ?_⟩
        rw [changePhoto_prev_index, h2]
        show JSNum.mod (JSNum.num (i - 1 + (t.photos.length : Int)))
            (JSNum.num (t.photos.length : Int)) = _
        exact JSNum_mod_num _ _ hne
      · exact ⟨i, by rw [changePhoto_other_index d t hd1 hd2, h2]⟩
  | addPhoto gid pd _ ih =>
      obtain ⟨h1, i, h2⟩ := ih
      constructor
      · show 0 < (addPhoto gid pd _).photos.length
        simp only [addPhoto]
        split_ifs
        · exact h1
        · rw [List.length_append]
          omega
      · refine ⟨i, ?_⟩
        show (addPhoto gid pd _).currentPhotoIndex = JSNum.num i
        simp only [addPhoto]
        split_ifs <;> exact h2
  | increaseNaughtyLevel a _ ih =>
      obtain ⟨h1, i, h2⟩ := ih
      exact ⟨h1, i, h2⟩
  | resetNaughtyLevel _ ih =>
      obtain ⟨h1, i, h2⟩ := ih
      exact ⟨h1, i, h2⟩
  | handleHeartClick _ ih =>
      obtain ⟨h1, i, h2⟩ := ih
      exact ⟨h1, i, h2⟩
  | hideConfetti _ ih =>
      obtain ⟨h1, i, h2⟩ := ih
      exact ⟨h1, i, h2⟩

/-- C9: for every state reachable from the default initial state by the
transition operations, deserializing the serialized persisted form
reproduces the same state. -/
theorem decodeState_roundtrip (s : ValentineState) (hs : Reachable s) :
    decodeState (encodeState s) = some s := by
  obtain ⟨-, i, h⟩ := reachable_photos_pos_index_num s hs
  exact decodeState_encodeState_of_num s i h

/-- C9 witness: the default initial state round-trips. -/
theorem decodeState_roundtrip_witness :
    decodeState (encodeState createInitialState) = some createInitialState :=
  decodeState_roundtrip createInitialState Reachable.init
